import Mathlib

/-!
Shallow embedding of src/collector/global_state.py (class GlobalState and
its module-level helpers) from the cluster-insight repository, together
with theorems settling the frozen claims about it.

Modelling conventions:
- Python dynamic values that flow through the asserted interfaces are
  embedded as the inductive type PyVal; Python type checks
  (isinstance with FloatType, IntType, DictType) become predicates on the
  constructors.  No floating-point arithmetic occurs in this module, so
  the float payload is an opaque integer tag.
- A Python assert failure is embedded as an Except error value; a method
  whose body may raise returns a pair of the Except outcome and the
  resulting object state, the state being the unmodified input whenever
  the outcome is an error raised before any mutation.
- The code is single-object imperative; each method becomes a state
  transformer on the GlobalState structure.  The sequential semantics is
  used throughout (each method body runs without interleaving), which is
  the semantics the claims quantify over.
-/

/-- Embedded Python runtime values, covering the value kinds this module
inspects: floats, ints, strings, dicts and None.  The float payload is an
opaque tag since global_state.py never computes with float contents. -/
inductive PyVal where
  | none
  | int (n : Int)
  | float (tag : Int)
  | str (s : String)
  | dict (entries : List (String × PyVal))

/-- Embeds the Python check isinstance(x, types.FloatType). -/
def PyVal.isFloat : PyVal → Bool
  | .float _ => true
  | _ => false

/-- Embeds the Python check isinstance(x, types.IntType). -/
def PyVal.isInt : PyVal → Bool
  | .int _ => true
  | _ => false

/-- Embeds the Python check isinstance(x, types.DictType). -/
def PyVal.isDict : PyVal → Bool
  | .dict _ => true
  | _ => false

/-- Embedded Python exception outcomes: an assert failure, or an
exception raised by an external collaborator (such as the injected
logging sink) identified by a message. -/
inductive PyError where
  | assertionError
  | raised (msg : String)
deriving DecidableEq

/-- Modelled from the spec: utilities.valid_string is imported from
utilities.py, which is not under src.  Per the spec the telemetry label
must be a valid non-empty string, so the check holds exactly of a
non-empty string value. -/
def valid_string (v : PyVal) : Bool :=
  match v with
  | .str s => s ≠ ""
  | _ => false

/-- The module-level namedtuple ElapsedRecord of global_state.py, with
fields start_time, what, thread_identifier, elapsed_seconds.  The thread
identifier returned by thread.get_ident() is embedded as an opaque Nat. -/
structure ElapsedRecord where
  start_time : PyVal
  what : PyVal
  thread_identifier : Nat
  elapsed_seconds : PyVal

/-- Modelled from the spec: simple_cache.SimpleCache lives in
simple_cache.py, which is not under src.  The claims only require that
init_caches_and_synchronization constructs one per resource kind from the
two configured age thresholds, so only the constructor arguments are
embedded. -/
structure SimpleCache where
  max_data_age_seconds : Int
  data_cleanup_age_seconds : Int

/-- The threading.BoundedSemaphore constructed by
init_caches_and_synchronization; the claims only require its
construction with the configured capacity. -/
structure BoundedSemaphore where
  capacity : Nat

/-- Modelled from the spec: the constants module is not under src.  The
configuration values it supplies are embedded as an explicit record of
parameters (the spec fixes their names but not their values). -/
structure Constants where
  max_cached_data_age_seconds : Int
  cache_data_cleanup_age_seconds : Int
  max_concurrent_compute_graph : Nat

/-- Embedding of the Python standard library generator random.Random as
a deterministic stream of raw draws plus a position.  randint consumes
one draw and, per its documented contract, returns a value in the closed
range between its bounds. -/
structure PyRandomGen where
  stream : Nat → Nat
  pos : Nat

/-- Embeds random.Random.randint lo hi: returns an integer in the closed
range from lo to hi, consuming one raw draw from the stream. -/
def randint (lo hi : Int) (g : PyRandomGen) : Int × PyRandomGen :=
  (lo + (g.stream g.pos : Int) % (hi - lo + 1), ⟨g.stream, g.pos + 1⟩)

/-- The state of a GlobalState object: one field per instance attribute
assigned in GlobalState.__init__ (locks are not represented: in the
sequential semantics each method body is atomic, which is exactly what
the per-component locks provide).  The injected logging sink kept in
the _logger attribute is handled separately by the logging facade
functions below. -/
structure GlobalState where
  testing : Bool
  num_workers : Int
  random_generator : PyRandomGen
  sequence_number : Int
  nodes_cache : Option SimpleCache
  pods_cache : Option SimpleCache
  services_cache : Option SimpleCache
  rcontrollers_cache : Option SimpleCache
  bounded_semaphore : Option BoundedSemaphore
  elapsed_queue : List ElapsedRecord
  relations_to_timestamps : PyVal

/-- GlobalState.__init__: testing off, zero workers, a freshly seeded
random generator (the seed comes from system time, so the generator is a
parameter), sequence number 0, all cache and semaphore pointers None, an
empty elapsed queue and an empty relations dict. -/
def initGlobalState (g : PyRandomGen) : GlobalState :=
  { testing := false
    num_workers := 0
    random_generator := g
    sequence_number := 0
    nodes_cache := Option.none
    pods_cache := Option.none
    services_cache := Option.none
    rcontrollers_cache := Option.none
    bounded_semaphore := Option.none
    elapsed_queue := []
    relations_to_timestamps := .dict [] }

/-- GlobalState.init_caches_and_synchronization: allocates the four
SimpleCache instances from the two configured ages and the bounded
semaphore from the configured capacity. -/
def init_caches_and_synchronization (c : Constants) (s : GlobalState) : GlobalState :=
  { s with
    nodes_cache := some ⟨c.max_cached_data_age_seconds, c.cache_data_cleanup_age_seconds⟩
    pods_cache := some ⟨c.max_cached_data_age_seconds, c.cache_data_cleanup_age_seconds⟩
    services_cache := some ⟨c.max_cached_data_age_seconds, c.cache_data_cleanup_age_seconds⟩
    rcontrollers_cache := some ⟨c.max_cached_data_age_seconds, c.cache_data_cleanup_age_seconds⟩
    bounded_semaphore := some ⟨c.max_concurrent_compute_graph⟩ }

/-- GlobalState.get_nodes_cache: returns the stored pointer as-is. -/
def get_nodes_cache (s : GlobalState) : Option SimpleCache := s.nodes_cache

/-- GlobalState.get_pods_cache: returns the stored pointer as-is. -/
def get_pods_cache (s : GlobalState) : Option SimpleCache := s.pods_cache

/-- GlobalState.get_services_cache: returns the stored pointer as-is. -/
def get_services_cache (s : GlobalState) : Option SimpleCache := s.services_cache

/-- GlobalState.get_rcontrollers_cache: returns the stored pointer as-is. -/
def get_rcontrollers_cache (s : GlobalState) : Option SimpleCache := s.rcontrollers_cache

/-- GlobalState.get_bounded_semaphore: returns the stored pointer as-is. -/
def get_bounded_semaphore (s : GlobalState) : Option BoundedSemaphore := s.bounded_semaphore

/-- GlobalState.set_testing: plain setter of the testing flag. -/
def set_testing (s : GlobalState) (testing : Bool) : GlobalState :=
  { s with testing := testing }

/-- GlobalState.get_testing: plain getter of the testing flag. -/
def get_testing (s : GlobalState) : Bool := s.testing

/-- GlobalState.set_num_workers: asserts the argument is an int, then
stores it.  The assert runs before the store, so on failure the state is
returned unchanged. -/
def set_num_workers (s : GlobalState) (workers : PyVal) : Except PyError Unit × GlobalState :=
  match workers with
  | .int n => (.ok (), { s with num_workers := n })
  | _ => (.error .assertionError, s)

/-- GlobalState.get_num_workers: plain getter of the worker count. -/
def get_num_workers (s : GlobalState) : Int := s.num_workers

/-- GlobalState.get_random_priority: under the random lock, in testing
mode increments and returns the sequence number; in production mode
draws randint 0 1000 from the stored generator. -/
def get_random_priority (s : GlobalState) : Int × GlobalState :=
  if s.testing then
    (s.sequence_number + 1, { s with sequence_number := s.sequence_number + 1 })
  else
    let p := randint 0 1000 s.random_generator
    (p.1, { s with random_generator := p.2 })

/-- GlobalState.get_relations_to_timestamps: under the relations lock,
returns the stored mapping. -/
def get_relations_to_timestamps (s : GlobalState) : PyVal := s.relations_to_timestamps

/-- GlobalState.set_relations_to_timestamps: asserts the argument is a
dict, then, under the relations lock, replaces the stored mapping with
it.  The assert runs before the lock and the store, so on failure the
state is returned unchanged. -/
def set_relations_to_timestamps (s : GlobalState) (v : PyVal) : Except PyError Unit × GlobalState :=
  if v.isDict then
    (.ok (), { s with relations_to_timestamps := v })
  else
    (.error .assertionError, s)

/-- The six leveled logging methods of GlobalState forward to the
corresponding method of the injected sink; the level names them. -/
inductive LogLevel where
  | debug
  | info
  | warning
  | error
  | fatal
  | exception

/-- The injected logging sink (the _logger attribute installed by
GlobalState.set_logger): for a level and the forwarded variadic
arguments it either returns normally or raises. -/
def LogSink : Type := LogLevel → List PyVal → Except PyError Unit

/-- Observable events of one facade call: taking the logger lock,
invoking the sink with the forwarded arguments, and releasing the lock.
The with-statement of Python releases the lock on every exit path,
normal or exceptional. -/
inductive LogEvent where
  | acquire
  | sinkCall (level : LogLevel) (args : List PyVal)
  | release

/-- Body shared by the six logging methods: under the logger lock,
invoke the sink method of the given level with the arguments unchanged.
Both the normal branch and the exceptional branch of the with-statement
release the lock, and the sink outcome (including a raised exception)
is handed back to the caller. -/
def facadeCall (level : LogLevel) (sink : LogSink) (args : List PyVal) :
    Except PyError Unit × List LogEvent :=
  match sink level args with
  | .ok _ => (.ok (), [.acquire, .sinkCall level args, .release])
  | .error e => (.error e, [.acquire, .sinkCall level args, .release])

/-- GlobalState.logger_debug. -/
def logger_debug (sink : LogSink) (args : List PyVal) : Except PyError Unit × List LogEvent :=
  facadeCall .debug sink args

/-- GlobalState.logger_info. -/
def logger_info (sink : LogSink) (args : List PyVal) : Except PyError Unit × List LogEvent :=
  facadeCall .info sink args

/-- GlobalState.logger_warning. -/
def logger_warning (sink : LogSink) (args : List PyVal) : Except PyError Unit × List LogEvent :=
  facadeCall .warning sink args

/-- GlobalState.logger_error. -/
def logger_error (sink : LogSink) (args : List PyVal) : Except PyError Unit × List LogEvent :=
  facadeCall .error sink args

/-- GlobalState.logger_fatal. -/
def logger_fatal (sink : LogSink) (args : List PyVal) : Except PyError Unit × List LogEvent :=
  facadeCall .fatal sink args

/-- GlobalState.logger_exception. -/
def logger_exception (sink : LogSink) (args : List PyVal) : Except PyError Unit × List LogEvent :=
  facadeCall .exception sink args

/-- The discard loop at the top of GlobalState.add_elapsed: while the
queue size is at least the capacity, pop one item from the front; if the
pop finds the queue empty (possible when the capacity is zero, and under
concurrency), break out of the loop.  The queue front is the list head. -/
def discardWhileFull (cap : Nat) : List ElapsedRecord → List ElapsedRecord
  | [] => []
  | x :: xs => if cap ≤ xs.length + 1 then discardWhileFull cap xs else x :: xs

/-- GlobalState.add_elapsed: asserts start_time and elapsed_seconds are
floats and url_or_fname is a valid string; on success runs the discard
loop and then appends an ElapsedRecord tagged with the calling thread
identifier.  The asserts run before any queue mutation, so on failure
the state is returned unchanged.  The capacity cap stands for
constants.MAX_ELAPSED_QUEUE_SIZE, whose numeric value lives in the
constants module outside src. -/
def add_elapsed (cap : Nat) (s : GlobalState)
    (start_time url_or_fname elapsed_seconds : PyVal) (tid : Nat) :
    Except PyError Unit × GlobalState :=
  if start_time.isFloat then
    if valid_string url_or_fname then
      if elapsed_seconds.isFloat then
        (.ok (), { s with elapsed_queue :=
          discardWhileFull cap s.elapsed_queue ++
            [⟨start_time, url_or_fname, tid, elapsed_seconds⟩] })
      else (.error .assertionError, s)
    else (.error .assertionError, s)
  else (.error .assertionError, s)

/-- The drain loop of GlobalState.get_elapsed: while the queue is not
empty, pop the front and append it to the result list. -/
def drainLoop (acc : List ElapsedRecord) : List ElapsedRecord → List ElapsedRecord
  | [] => acc
  | x :: xs => drainLoop (acc ++ [x]) xs

/-- GlobalState.get_elapsed: drains the queue into a list in queue
order and returns the list; afterwards the queue is empty. -/
def get_elapsed (s : GlobalState) : List ElapsedRecord × GlobalState :=
  (drainLoop [] s.elapsed_queue, { s with elapsed_queue := [] })

/-- One call to add_elapsed as made by a worker: the three value
arguments plus the identifier of the calling thread. -/
structure AddCall where
  start_time : PyVal
  url_or_fname : PyVal
  elapsed_seconds : PyVal
  tid : Nat

/-- The three assert preconditions of add_elapsed, as one check. -/
def validCall (c : AddCall) : Bool :=
  c.start_time.isFloat && valid_string c.url_or_fname && c.elapsed_seconds.isFloat

/-- The ElapsedRecord that add_elapsed appends for one call. -/
def mkRecord (c : AddCall) : ElapsedRecord :=
  ⟨c.start_time, c.url_or_fname, c.tid, c.elapsed_seconds⟩

/-- A sequence of add_elapsed calls run in order on a state, each call
keeping the state it received whenever its asserts fail. -/
def runAdds (cap : Nat) (calls : List AddCall) (s : GlobalState) : GlobalState :=
  calls.foldl
    (fun t c => (add_elapsed cap t c.start_time c.url_or_fname c.elapsed_seconds c.tid).2) s

/-- N successive calls to get_random_priority, collecting the returned
values in call order together with the final state. -/
def callPriorityN : Nat → GlobalState → List Int × GlobalState
  | 0, s => ([], s)
  | n + 1, s =>
    let p := get_random_priority s
    let r := callPriorityN n p.2
    (p.1 :: r.1, r.2)

/-! Helper lemmas about the queue loops and the priority generator. -/

/-- The drain loop returns its accumulator followed by the whole queue. -/
theorem drainLoop_eq (q : List ElapsedRecord) :
    ∀ acc : List ElapsedRecord, drainLoop acc q = acc ++ q := by
  induction q with
  | nil => intro acc; simp [drainLoop]
  | cons x xs ih => intro acc; simp [drainLoop, ih]

/-- The discard loop keeps exactly the entries beyond the first
length + 1 - cap ones, that is at most cap - 1 entries. -/
theorem discardWhileFull_eq_drop (cap : Nat) (q : List ElapsedRecord) :
    discardWhileFull cap q = q.drop (q.length + 1 - cap) := by
  induction q with
  | nil => simp [discardWhileFull]
  | cons x xs ih =>
    by_cases hc : cap ≤ xs.length + 1
    · have h2 : (x :: xs).length + 1 - cap = (xs.length + 1 - cap) + 1 := by
        simp only [List.length_cons]; omega
      simp only [discardWhileFull, if_pos hc, ih, h2, List.drop_succ_cons]
    · have h2 : (x :: xs).length + 1 - cap = 0 := by
        simp only [List.length_cons]; omega
      simp only [discardWhileFull, if_neg hc, h2, List.drop_zero]

/-- On arguments passing all three asserts, add_elapsed succeeds and
performs the discard-then-append update of the queue. -/
theorem add_elapsed_valid (cap : Nat) (s : GlobalState) (c : AddCall)
    (h : validCall c = true) :
    add_elapsed cap s c.start_time c.url_or_fname c.elapsed_seconds c.tid =
      (.ok (), { s with elapsed_queue :=
        discardWhileFull cap s.elapsed_queue ++ [mkRecord c] }) := by
  have h1 : c.start_time.isFloat = true := by
    simp only [validCall, Bool.and_eq_true] at h; exact h.1.1
  have h2 : valid_string c.url_or_fname = true := by
    simp only [validCall, Bool.and_eq_true] at h; exact h.1.2
  have h3 : c.elapsed_seconds.isFloat = true := by
    simp only [validCall, Bool.and_eq_true] at h; exact h.2
  simp [add_elapsed, h1, h2, h3, mkRecord]

/-- Running a sequence of valid add_elapsed calls only changes the
elapsed queue, which evolves by the discard-then-append step. -/
theorem runAdds_queue (cap : Nat) (calls : List AddCall) :
    ∀ s : GlobalState, (∀ c ∈ calls, validCall c = true) →
      runAdds cap calls s =
        { s with elapsed_queue :=
            calls.foldl (fun q c => discardWhileFull cap q ++ [mkRecord c]) s.elapsed_queue } := by
  induction calls with
  | nil => intro s _; rfl
  | cons c cs ih =>
    intro s hv
    have hc : validCall c = true := hv c (List.mem_cons_self c cs)
    have hcs : ∀ d ∈ cs, validCall d = true := fun d hd => hv d (List.mem_cons_of_mem c hd)
    simp only [runAdds, List.foldl_cons] at ih ⊢
    rw [add_elapsed_valid cap s c hc]
    exact ih _ hcs

/-- Arithmetic core of the sliding-window argument: dropping down to
cap - 1 entries and appending one more equals keeping the last cap
entries of the extended list. -/
theorem dropStep (X : List ElapsedRecord) (r : ElapsedRecord) (cap n : Nat)
    (h : 1 ≤ cap) (hn : X.length = n) :
    (X.drop (n - cap)).drop ((X.drop (n - cap)).length + 1 - cap) ++ [r] =
      (X ++ [r]).drop (n + 1 - cap) := by
  subst hn
  have hidx : (X.length - cap) + ((X.drop (X.length - cap)).length + 1 - cap) =
      X.length + 1 - cap := by
    rw [List.length_drop]; omega
  rw [List.drop_drop, hidx, List.drop_append_of_le_length (by omega)]

/-- Starting from an empty queue, a sequence of discard-then-append
steps with positive capacity retains exactly the most recent cap
records of the sequence. -/
theorem foldQueue_drop (cap : Nat) (h : 1 ≤ cap) (calls : List AddCall) :
    calls.foldl (fun q c => discardWhileFull cap q ++ [mkRecord c]) [] =
      (calls.map mkRecord).drop (calls.length - cap) := by
  induction calls using List.reverseRecOn with
  | nil => simp
  | append_singleton cs c ih =>
    rw [List.foldl_append, List.foldl_cons, List.foldl_nil, ih,
      discardWhileFull_eq_drop cap, List.map_append, List.map_cons, List.map_nil,
      List.length_append, List.length_cons, List.length_nil, Nat.zero_add]
    exact dropStep (cs.map mkRecord) (mkRecord c) cap cs.length h (List.length_map cs mkRecord)

/-- In testing mode with sequence number k, N calls to
get_random_priority return k+1, k+2, ..., k+N in order, and leave the
coordinator in testing mode with sequence number k+N. -/
theorem callPriorityN_testing (N : Nat) :
    ∀ (s : GlobalState) (k : Nat), s.testing = true → s.sequence_number = (k : Int) →
      (callPriorityN N s).1 = (List.range' (k + 1) N).map (fun i : Nat => (i : Int)) := by
  induction N with
  | zero => intro s k _ _; rfl
  | succ n ih =>
    intro s k ht hk
    have hstep : get_random_priority s =
        (s.sequence_number + 1, { s with sequence_number := s.sequence_number + 1 }) := by
      simp [get_random_priority, ht]
    have hcast : s.sequence_number + 1 = ((k + 1 : Nat) : Int) := by
      rw [hk]; push_cast; ring
    simp only [callPriorityN, hstep, hcast]
    rw [List.range'_succ, List.map_cons]
    congr 1
    exact ih { s with sequence_number := ((k + 1 : Nat) : Int) } (k + 1) ht rfl

/-- The logging facade invokes the sink of the chosen level with the
arguments unchanged, hands its outcome (normal or raised) back to the
caller, and the lock release is the final event on both exit paths. -/
theorem facadeCall_spec (level : LogLevel) (sink : LogSink) (args : List PyVal) :
    facadeCall level sink args =
      (sink level args, [.acquire, .sinkCall level args, .release]) := by
  cases h : sink level args with
  | ok u => cases u; simp [facadeCall, h]
  | error e => simp [facadeCall, h]

/-! Concrete sample inputs used by the closed witness and counterexample
theorems below. -/

/-- A sample random generator whose every raw draw is 500. -/
def sampleGen : PyRandomGen := ⟨fun _ => 500, 0⟩

/-- Sample configuration values (the claims do not depend on them). -/
def sampleConstants : Constants := ⟨60, 3600, 10⟩

/-- A sample non-empty relations mapping. -/
def sampleRelations : PyVal := .dict [("r1", .int 1), ("r2", .int 3)]

/-- A sample coordinator state holding a non-empty relations mapping. -/
def sampleState : GlobalState :=
  { initGlobalState sampleGen with relations_to_timestamps := sampleRelations }

/-- Three valid add_elapsed calls. -/
def sampleCalls : List AddCall :=
  [⟨.float 1, .str "a", .float 10, 1⟩, ⟨.float 2, .str "b", .float 20, 2⟩,
    ⟨.float 3, .str "c", .float 30, 3⟩]

/-- One valid add_elapsed call. -/
def shortCalls : List AddCall := [⟨.float 4, .str "d", .float 40, 4⟩]

/-! The claims. -/

/-- C1, counterexample: invoked on a freshly constructed GlobalState,
before init_caches_and_synchronization, every cache and semaphore
accessor completes normally and hands back the uninitialized None
placeholder; no accessor fails.  The source bodies are bare returns of
the stored pointers, so in the embedding they are total functions, and
here each one returns None rather than any programming-error failure. -/
theorem get_caches_before_init_return_none :
    get_nodes_cache (initGlobalState sampleGen) = Option.none ∧
    get_pods_cache (initGlobalState sampleGen) = Option.none ∧
    get_services_cache (initGlobalState sampleGen) = Option.none ∧
    get_rcontrollers_cache (initGlobalState sampleGen) = Option.none ∧
    get_bounded_semaphore (initGlobalState sampleGen) = Option.none :=
  ⟨rfl, rfl, rfl, rfl, rfl⟩

/-- C1, amended: before init_caches_and_synchronization every accessor
returns the None placeholder without failing, and after
init_caches_and_synchronization every accessor returns an initialized
(non-None) cache or semaphore. -/
theorem accessors_none_before_init_some_after (g : PyRandomGen) (c : Constants)
    (s : GlobalState) :
    (get_nodes_cache (initGlobalState g) = Option.none ∧
      get_pods_cache (initGlobalState g) = Option.none ∧
      get_services_cache (initGlobalState g) = Option.none ∧
      get_rcontrollers_cache (initGlobalState g) = Option.none ∧
      get_bounded_semaphore (initGlobalState g) = Option.none) ∧
    ((get_nodes_cache (init_caches_and_synchronization c s)).isSome = true ∧
      (get_pods_cache (init_caches_and_synchronization c s)).isSome = true ∧
      (get_services_cache (init_caches_and_synchronization c s)).isSome = true ∧
      (get_rcontrollers_cache (init_caches_and_synchronization c s)).isSome = true ∧
      (get_bounded_semaphore (init_caches_and_synchronization c s)).isSome = true) :=
  ⟨⟨rfl, rfl, rfl, rfl, rfl⟩, ⟨rfl, rfl, rfl, rfl, rfl⟩⟩

/-- C2: for every sequence of valid add_elapsed calls run from a fresh
state, and any positive capacity, the queue length stays at most the
capacity and the retained records are exactly the most recently
inserted ones up to capacity, oldest discarded first.  Quantifying over
all call sequences covers every prefix, hence the state after each
call. -/
theorem add_elapsed_bound_and_recency (cap : Nat) (calls : List AddCall)
    (g : PyRandomGen) (hcap : 1 ≤ cap) (hv : ∀ c ∈ calls, validCall c = true) :
    (runAdds cap calls (initGlobalState g)).elapsed_queue.length ≤ cap ∧
    (runAdds cap calls (initGlobalState g)).elapsed_queue =
      (calls.map mkRecord).drop (calls.length - cap) := by
  have hq : (runAdds cap calls (initGlobalState g)).elapsed_queue =
      (calls.map mkRecord).drop (calls.length - cap) := by
    rw [runAdds_queue cap calls _ hv]
    exact foldQueue_drop cap hcap calls
  refine ⟨?_, hq⟩
  rw [hq, List.length_drop, List.length_map]
  omega

/-- Witness for C2 at capacity 2 and three concrete valid calls. -/
theorem add_elapsed_bound_and_recency_witness :
    (1 ≤ 2 ∧ ∀ c ∈ sampleCalls, validCall c = true) ∧
    ((runAdds 2 sampleCalls (initGlobalState sampleGen)).elapsed_queue.length ≤ 2 ∧
      (runAdds 2 sampleCalls (initGlobalState sampleGen)).elapsed_queue =
        (sampleCalls.map mkRecord).drop (sampleCalls.length - 2)) :=
  ⟨⟨by decide, by decide⟩,
    add_elapsed_bound_and_recency 2 sampleCalls sampleGen (by decide) (by decide)⟩

/-- C3: draining returns exactly the records inserted since the last
drain (at most capacity many), in insertion order, leaves the queue
empty, returns the empty list on an empty queue, and a second drain
right after a drain returns the empty list. -/
theorem get_elapsed_drains_in_fifo_order (cap : Nat) (calls : List AddCall)
    (s : GlobalState) (hcap : 1 ≤ cap) (hv : ∀ c ∈ calls, validCall c = true)
    (hlen : calls.length ≤ cap) :
    (get_elapsed (runAdds cap calls (get_elapsed s).2)).1 = calls.map mkRecord ∧
    (get_elapsed (runAdds cap calls (get_elapsed s).2)).2.elapsed_queue = [] ∧
    (get_elapsed s).1 = s.elapsed_queue ∧
    (s.elapsed_queue = [] → (get_elapsed s).1 = []) ∧
    (get_elapsed (get_elapsed s).2).1 = [] := by
  have hfirst : ∀ t : GlobalState, (get_elapsed t).1 = t.elapsed_queue := by
    intro t
    show drainLoop [] t.elapsed_queue = t.elapsed_queue
    rw [drainLoop_eq, List.nil_append]
  have hq : (runAdds cap calls (get_elapsed s).2).elapsed_queue = calls.map mkRecord := by
    rw [runAdds_queue cap calls _ hv]
    show calls.foldl _ [] = _
    rw [foldQueue_drop cap hcap calls]
    have h0 : calls.length - cap = 0 := by omega
    rw [h0, List.drop_zero]
  refine ⟨?_, rfl, hfirst s, ?_, ?_⟩
  · rw [hfirst, hq]
  · intro h; rw [hfirst, h]
  · exact hfirst _

/-- Witness for C3 at capacity 2, one concrete valid call, and a
concrete starting state. -/
theorem get_elapsed_drains_in_fifo_order_witness :
    (1 ≤ 2 ∧ (∀ c ∈ shortCalls, validCall c = true) ∧ shortCalls.length ≤ 2) ∧
    ((get_elapsed (runAdds 2 shortCalls (get_elapsed sampleState).2)).1 =
        shortCalls.map mkRecord ∧
      (get_elapsed (runAdds 2 shortCalls (get_elapsed sampleState).2)).2.elapsed_queue = [] ∧
      (get_elapsed sampleState).1 = sampleState.elapsed_queue ∧
      (sampleState.elapsed_queue = [] → (get_elapsed sampleState).1 = []) ∧
      (get_elapsed (get_elapsed sampleState).2).1 = []) :=
  ⟨⟨by decide, by decide, by decide⟩,
    get_elapsed_drains_in_fifo_order 2 shortCalls sampleState (by decide) (by decide)
      (by decide)⟩

/-- C4: in testing mode, N calls to get_random_priority on a freshly
configured coordinator return exactly the integers 1, 2, ..., N in
order: strictly increasing, starting from 1, no gaps or duplicates. -/
theorem get_random_priority_testing_sequence (N : Nat) (g : PyRandomGen) :
    (callPriorityN N (set_testing (initGlobalState g) true)).1 =
      (List.range' 1 N).map (fun i : Nat => (i : Int)) :=
  callPriorityN_testing N (set_testing (initGlobalState g) true) 0 rfl rfl

/-- C5: in production mode (testing flag false) get_random_priority
always returns an integer r with 0 <= r <= 1000. -/
theorem get_random_priority_production_range (s : GlobalState)
    (h : s.testing = false) :
    0 ≤ (get_random_priority s).1 ∧ (get_random_priority s).1 ≤ 1000 := by
  have h0 : (get_random_priority s).1 =
      (s.random_generator.stream s.random_generator.pos : Int) % 1001 := by
    simp [get_random_priority, h, randint]
  constructor
  · rw [h0]; exact Int.emod_nonneg _ (by norm_num)
  · rw [h0]
    have := Int.emod_lt_of_pos
      (s.random_generator.stream s.random_generator.pos : Int)
      (show (0 : Int) < 1001 by norm_num)
    omega

/-- Witness for C5 on a concrete production-mode state. -/
theorem get_random_priority_production_range_witness :
    (initGlobalState sampleGen).testing = false ∧
    (0 ≤ (get_random_priority (initGlobalState sampleGen)).1 ∧
      (get_random_priority (initGlobalState sampleGen)).1 ≤ 1000) :=
  ⟨rfl, get_random_priority_production_range (initGlobalState sampleGen) rfl⟩

/-- C6: set_relations_to_timestamps fails by assertion exactly when its
argument is not a dict, set_num_workers fails by assertion exactly when
its argument is not an int, and in both failure cases the whole state,
in particular the stored relation map and worker count, is unchanged. -/
theorem setters_assert_and_leave_state_unchanged (s : GlobalState) (v w : PyVal) :
    ((set_relations_to_timestamps s v).1 = .error .assertionError ↔ v.isDict = false) ∧
    (v.isDict = false → (set_relations_to_timestamps s v).2 = s) ∧
    ((set_num_workers s w).1 = .error .assertionError ↔ w.isInt = false) ∧
    (w.isInt = false → (set_num_workers s w).2 = s) := by
  refine ⟨?_, ?_, ?_, ?_⟩
  · cases hv : v.isDict <;> simp [set_relations_to_timestamps, hv]
  · intro hv; simp [set_relations_to_timestamps, hv]
  · cases w <;> simp [set_num_workers, PyVal.isInt]
  · intro hw; cases w <;> simp_all [set_num_workers, PyVal.isInt]

/-- Witness for C6 on concrete malformed arguments: a string passed as
the relation map and None passed as the worker count. -/
theorem setters_assert_and_leave_state_unchanged_witness :
    (set_relations_to_timestamps sampleState (.str "x")).1 = .error .assertionError ∧
    (set_relations_to_timestamps sampleState (.str "x")).2 = sampleState ∧
    (set_num_workers sampleState .none).1 = .error .assertionError ∧
    (set_num_workers sampleState .none).2 = sampleState :=
  ⟨(setters_assert_and_leave_state_unchanged sampleState (.str "x") .none).1.mpr rfl,
    (setters_assert_and_leave_state_unchanged sampleState (.str "x") .none).2.1 rfl,
    (setters_assert_and_leave_state_unchanged sampleState (.str "x") .none).2.2.1.mpr rfl,
    (setters_assert_and_leave_state_unchanged sampleState (.str "x") .none).2.2.2 rfl⟩

/-- C7: each of the six leveled facade operations hands the outcome of
the injected sink back to the caller unchanged, so a raised sink
exception is propagated; the event trace shows the sink receives the
variadic arguments unchanged, and the lock release is the final event
on every exit path, exceptional or normal. -/
theorem logger_facade_propagates_and_releases (sink : LogSink) (args : List PyVal) :
    logger_debug sink args = (sink .debug args, [.acquire, .sinkCall .debug args, .release]) ∧
    logger_info sink args = (sink .info args, [.acquire, .sinkCall .info args, .release]) ∧
    logger_warning sink args =
      (sink .warning args, [.acquire, .sinkCall .warning args, .release]) ∧
    logger_error sink args = (sink .error args, [.acquire, .sinkCall .error args, .release]) ∧
    logger_fatal sink args = (sink .fatal args, [.acquire, .sinkCall .fatal args, .release]) ∧
    logger_exception sink args =
      (sink .exception args, [.acquire, .sinkCall .exception args, .release]) :=
  ⟨facadeCall_spec .debug sink args, facadeCall_spec .info sink args,
    facadeCall_spec .warning sink args, facadeCall_spec .error sink args,
    facadeCall_spec .fatal sink args, facadeCall_spec .exception sink args⟩

/-- C8: installing a dict m and reading it back returns exactly m; the
update replaces the previous mapping wholesale (the resulting state is
the old state with only the relations mapping replaced by m, whatever
was stored before). -/
theorem set_then_get_relations_roundtrip (s : GlobalState) (m : PyVal)
    (h : m.isDict = true) :
    get_relations_to_timestamps (set_relations_to_timestamps s m).2 = m ∧
    (set_relations_to_timestamps s m).2 = { s with relations_to_timestamps := m } := by
  constructor <;> simp [set_relations_to_timestamps, get_relations_to_timestamps, h]

/-- Witness for C8: replacing a non-empty stored mapping that shares a
key with the new one returns exactly the new mapping, with no entry of
the old mapping merged in. -/
theorem set_then_get_relations_roundtrip_witness :
    (PyVal.dict [("r1", .int 9)]).isDict = true ∧
    (get_relations_to_timestamps
        (set_relations_to_timestamps sampleState (.dict [("r1", .int 9)])).2 =
      .dict [("r1", .int 9)] ∧
    (set_relations_to_timestamps sampleState (.dict [("r1", .int 9)])).2 =
      { sampleState with relations_to_timestamps := .dict [("r1", .int 9)] }) :=
  ⟨rfl, set_then_get_relations_roundtrip sampleState (.dict [("r1", .int 9)]) rfl⟩

/-- C9, counterexample: configure the coordinator in production mode
(set_testing false): a call then returns the randint draw 500.  Now
perform one more operation, set_testing true: the next call returns the
counter value 1 instead of a randint draw, so an operation performed
after configuration switched get_random_priority from the pseudo-random
mode to the counter mode.  Nothing latches the mode. -/
theorem set_testing_switches_mode_after_config :
    (get_random_priority (set_testing (initGlobalState sampleGen) false)).1 = 500 ∧
    (get_random_priority
        (set_testing (set_testing (initGlobalState sampleGen) false) true)).1 = 1 ∧
    (500 : Int) ≠ 1 :=
  ⟨by decide, by decide, by decide⟩

/-- C9, amended: the mode of get_random_priority is determined per call
by the stored testing flag; every coordinator operation other than
set_testing leaves that flag unchanged, so the mode stays fixed exactly
as long as set_testing is not called again, while set_testing can
switch it at any time. -/
theorem mode_changes_only_via_set_testing (s : GlobalState) (c : Constants)
    (cap : Nat) (v w st u es : PyVal) (tid : Nat) :
    (init_caches_and_synchronization c s).testing = s.testing ∧
    (get_random_priority s).2.testing = s.testing ∧
    (set_num_workers s w).2.testing = s.testing ∧
    (set_relations_to_timestamps s v).2.testing = s.testing ∧
    (add_elapsed cap s st u es tid).2.testing = s.testing ∧
    (get_elapsed s).2.testing = s.testing ∧
    (s.testing = true → (get_random_priority s).1 = s.sequence_number + 1) ∧
    (s.testing = false →
      (get_random_priority s).1 = (randint 0 1000 s.random_generator).1) := by
  refine ⟨rfl, ?_, ?_, ?_, ?_, rfl, ?_, ?_⟩
  · by_cases h : s.testing <;> simp [get_random_priority, h]
  · cases w <;> rfl
  · by_cases h : v.isDict <;> simp [set_relations_to_timestamps, h]
  · unfold add_elapsed; split_ifs <;> rfl
  · intro h; simp [get_random_priority, h]
  · intro h; simp [get_random_priority, h]

/-- Witness for C9 amended, at a concrete production-mode state and
concrete arguments, with the production branch implication
discharged. -/
theorem mode_changes_only_via_set_testing_witness :
    ((init_caches_and_synchronization sampleConstants sampleState).testing =
      sampleState.testing ∧
    (get_random_priority sampleState).2.testing = sampleState.testing ∧
    (set_num_workers sampleState (.int 4)).2.testing = sampleState.testing ∧
    (set_relations_to_timestamps sampleState (.dict [])).2.testing = sampleState.testing ∧
    (add_elapsed 5 sampleState (.float 1) (.str "u") (.float 2) 7).2.testing =
      sampleState.testing ∧
    (get_elapsed sampleState).2.testing = sampleState.testing) ∧
    sampleState.testing = false ∧
    (get_random_priority sampleState).1 = (randint 0 1000 sampleState.random_generator).1 :=
  ⟨⟨(mode_changes_only_via_set_testing sampleState sampleConstants 5 (.dict [])
        (.int 4) (.float 1) (.str "u") (.float 2) 7).1,
    (mode_changes_only_via_set_testing sampleState sampleConstants 5 (.dict [])
        (.int 4) (.float 1) (.str "u") (.float 2) 7).2.1,
    (mode_changes_only_via_set_testing sampleState sampleConstants 5 (.dict [])
        (.int 4) (.float 1) (.str "u") (.float 2) 7).2.2.1,
    (mode_changes_only_via_set_testing sampleState sampleConstants 5 (.dict [])
        (.int 4) (.float 1) (.str "u") (.float 2) 7).2.2.2.1,
    (mode_changes_only_via_set_testing sampleState sampleConstants 5 (.dict [])
        (.int 4) (.float 1) (.str "u") (.float 2) 7).2.2.2.2.1,
    (mode_changes_only_via_set_testing sampleState sampleConstants 5 (.dict [])
        (.int 4) (.float 1) (.str "u") (.float 2) 7).2.2.2.2.2.1⟩,
    rfl,
    (mode_changes_only_via_set_testing sampleState sampleConstants 5 (.dict [])
        (.int 4) (.float 1) (.str "u") (.float 2) 7).2.2.2.2.2.2.2 rfl⟩

/-- C10: add_elapsed fails with an assertion error exactly when one of
its three preconditions is violated (start_time a float, url_or_fname a
valid non-empty string, elapsed_seconds a float), and on such a failure
the whole state, in particular the telemetry queue, is unchanged. -/
theorem add_elapsed_assertion_preconditions (cap : Nat) (s : GlobalState)
    (st u es : PyVal) (tid : Nat) :
    ((add_elapsed cap s st u es tid).1 = .error .assertionError ↔
      ¬(st.isFloat = true ∧ valid_string u = true ∧ es.isFloat = true)) ∧
    (¬(st.isFloat = true ∧ valid_string u = true ∧ es.isFloat = true) →
      (add_elapsed cap s st u es tid).2 = s ∧
      (add_elapsed cap s st u es tid).2.elapsed_queue = s.elapsed_queue) := by
  unfold add_elapsed
  split_ifs with h1 h2 h3 <;> simp_all

/-- Witness for C10 on a concrete violating input (an int passed as
start_time): the call fails by assertion and the state, in particular
the queue, is unchanged. -/
theorem add_elapsed_assertion_preconditions_witness :
    (¬((PyVal.int 3).isFloat = true ∧ valid_string (.str "u") = true ∧
        (PyVal.float 1).isFloat = true)) ∧
    (add_elapsed 5 sampleState (.int 3) (.str "u") (.float 1) 7).1 =
      .error .assertionError ∧
    (add_elapsed 5 sampleState (.int 3) (.str "u") (.float 1) 7).2 = sampleState :=
  ⟨by decide,
    (add_elapsed_assertion_preconditions 5 sampleState (.int 3) (.str "u")
        (.float 1) 7).1.mpr (by decide),
    ((add_elapsed_assertion_preconditions 5 sampleState (.int 3) (.str "u")
        (.float 1) 7).2 (by decide)).1⟩
